import Mathlib

/-!
# CarromMaster — verification of the turn-resolution and AI-planning spec

Shallow embedding of the game logic of `src/scenes/Boot.ts` (turn
resolution, queen rules, win condition) and of the AI planner
`CarromAI` (candidate collection, shot evaluation, obstacle test).

Conventions:
* Scores are naturals (the code only ever adds, or subtracts with a
  `Math.max(0, ·)` floor, starting from 0).
* Board coordinates of the game-state part are rationals; the physics
  is outside the embedded fragment, so a "strike" is an arbitrary
  mutation of the piece list together with a `TurnResult` accumulator.
* The AI part works over the reals, since it uses `atan2`, `cos`,
  `sin` and `sqrt`.
-/

namespace Carrom

/-- Player colours, `'white' | 'black'` in the source. -/
inductive PlayerColor where
  | white
  | black
deriving DecidableEq, Repr

/-- Piece types as stored in `gameData.type` (the striker is a separate
body in the source and never appears in `this.pieces`). -/
inductive PieceType where
  | white
  | black
  | queen
deriving DecidableEq, Repr

/-- The piece type owned by a player (`type === this.currentPlayer`
string comparison in the source). -/
def ofPlayer : PlayerColor → PieceType
  | .white => .white
  | .black => .black

/-- The opponent, as computed in `switchTurn`. -/
def otherPlayer : PlayerColor → PlayerColor
  | .white => .black
  | .black => .white

/-- One carrom man: `gameData` of a Matter body in `this.pieces`. -/
structure BoardPiece where
  type : PieceType
  pocketed : Bool
  x : ℚ
  y : ℚ
deriving DecidableEq, Repr

/-- The game-state fields of scene `Boot` that turn resolution reads and
writes. -/
structure GameState where
  pieces : List BoardPiece
  currentPlayer : PlayerColor
  whiteScore : ℕ
  blackScore : ℕ
  queenPocketed : Bool
  queenPocketedBy : Option PlayerColor
  queenCovered : Bool
  needsCover : Bool
deriving DecidableEq, Repr

/-- The per-strike accumulator `this.turnResult`, filled in by
`pocketPiece` / `pocketStriker` while the physics runs. -/
structure TurnResult where
  pocketedOwn : Bool
  pocketedOpponent : Bool
  pocketedQueen : Bool
  pocketedStriker : Bool
  piecesThisTurn : List PieceType
deriving DecidableEq, Repr

/-- `resetTurnResult`. -/
def resetTurnResult : TurnResult :=
  { pocketedOwn := false, pocketedOpponent := false, pocketedQueen := false
    pocketedStriker := false, piecesThisTurn := [] }

/-- The distinct values the local `message` of `handleTurnEnd` can take
(each constructor is one string literal of the source). -/
inductive TurnMessage where
  | none
  | strikerFoul
  | queenCoveredBonus
  | queenPocketedCoverNext
  | failedToCover
  | continueGain (count : ℕ)
  | pocketedOpp
deriving DecidableEq, Repr

/-- What `handleTurnEnd` leaves behind: the updated scene fields, the
final `message`, the local `continuesTurn`, and the winner when
`checkWinCondition` fired (in the source `endGame` starts the
`GameOver` scene; here we record the winner and stop). -/
structure TurnEndResult where
  state : GameState
  message : TurnMessage
  continuesTurn : Bool
  winner : Option PlayerColor
deriving DecidableEq, Repr

/-- `pieces.find(pred)` followed by mutation of the found piece:
rewrite the first element satisfying `p` with `f`, keep the rest. -/
def updateFirst (p : α → Bool) (f : α → α) : List α → List α
  | [] => []
  | a :: as => if p a then f a :: as else a :: updateFirst p f as

/-- Score of a player (`whiteScore` / `blackScore`). -/
def scoreOf (s : GameState) : PlayerColor → ℕ
  | .white => s.whiteScore
  | .black => s.blackScore

/-- Whether a board piece is a pocketed piece of the given player's
colour (the predicate of `returnPieceAsPenalty`'s `find`). -/
def isPocketedOwn (c : PlayerColor) (p : BoardPiece) : Bool :=
  p.type = ofPlayer c && p.pocketed

/-- `returnPieceAsPenalty` (Boot.ts lines 1068–1083): un-pocket the
first pocketed piece of the current player's colour, place it near the
board centre (`offset` is the random `(Math.random()-0.5)*40`), and
deduct one point floored at zero.  When the player has no pocketed
piece the `find` fails and nothing happens at all. -/
def returnPieceAsPenalty (s : GameState) (offset cx cy : ℚ) : GameState :=
  if s.pieces.any (isPocketedOwn s.currentPlayer) then
    { s with
      pieces := updateFirst (isPocketedOwn s.currentPlayer)
        (fun p => { p with pocketed := false, x := cx + offset, y := cy + offset })
        s.pieces
      whiteScore := if s.currentPlayer = .white then max 0 (s.whiteScore - 1) else s.whiteScore
      blackScore := if s.currentPlayer = .black then max 0 (s.blackScore - 1) else s.blackScore }
  else s

/-- `returnQueenToCenter` (Boot.ts lines 1085–1097): un-pocket the
queen and put it back at the board centre. -/
def returnQueenToCenter (s : GameState) (cx cy : ℚ) : GameState :=
  { s with
    pieces := updateFirst (fun p => p.type = PieceType.queen)
      (fun p => { p with pocketed := false, x := cx, y := cy })
      s.pieces }

/-- `checkWinCondition` (Boot.ts lines 1242–1255): a player has won
when they have no unpocketed piece of their colour left and the queen
is not pocketed-uncovered.  The inner `if` is the source's redundant
re-check, kept for fidelity. -/
def checkWinCondition (s : GameState) : Option PlayerColor :=
  let whitePieces := s.pieces.filter fun p => p.type = PieceType.white && !p.pocketed
  let blackPieces := s.pieces.filter fun p => p.type = PieceType.black && !p.pocketed
  if whitePieces.length = 0 ∧ (s.queenCovered ∨ ¬s.queenPocketed) then
    if s.queenPocketed ∧ ¬s.queenCovered then Option.none else some .white
  else if blackPieces.length = 0 ∧ (s.queenCovered ∨ ¬s.queenPocketed) then
    if s.queenPocketed ∧ ¬s.queenCovered then Option.none else some .black
  else Option.none

/-- `switchTurn`: hand the turn to the other player (graphics and the
multiplayer notification are dropped). -/
def switchTurn (s : GameState) : GameState :=
  { s with currentPlayer := otherPlayer s.currentPlayer }

/-- Number of pieces of the current player's colour pocketed this
strike: `result.piecesThisTurn.filter(t => t === this.currentPlayer).length`. -/
def ownThisTurn (r : TurnResult) (c : PlayerColor) : ℕ :=
  (r.piecesThisTurn.filter fun t => t = ofPlayer c).length

/-- `handleTurnEnd` (Boot.ts lines 998–1066), as a pure function of the
scene state, the strike's accumulator, the penalty's random offset and
the board centre.  Mirrors the source branch for branch:
striker-foul penalty first; then the queen chain
(pocketed-this-strike / cover-or-fail); then plain own-piece scoring;
then the win check (early return), and finally the turn hand-over
`if (!continuesTurn || result.pocketedStriker) switchTurn()`. -/
def handleTurnEnd (s : GameState) (r : TurnResult) (offset cx cy : ℚ) : TurnEndResult :=
  let (s1, m1) :=
    if r.pocketedStriker then
      (returnPieceAsPenalty s offset cx cy, TurnMessage.strikerFoul)
    else (s, TurnMessage.none)
  let own := ownThisTurn r s1.currentPlayer
  let (s2, m2, continuesTurn) :=
    if r.pocketedQueen && !s1.queenCovered then
      let sq := { s1 with queenPocketed := true
                          queenPocketedBy := some s1.currentPlayer
                          needsCover := true }
      if own > 0 then
        ({ sq with queenCovered := true
                   needsCover := false
                   whiteScore := if sq.currentPlayer = .white then sq.whiteScore + 3 else sq.whiteScore
                   blackScore := if sq.currentPlayer = .black then sq.blackScore + 3 else sq.blackScore },
         TurnMessage.queenCoveredBonus, true)
      else
        (sq, TurnMessage.queenPocketedCoverNext, true)
    else if s1.needsCover && s1.queenPocketedBy = some s1.currentPlayer then
      if own > 0 then
        ({ s1 with queenCovered := true
                   needsCover := false
                   whiteScore := if s1.currentPlayer = .white then s1.whiteScore + 3 else s1.whiteScore
                   blackScore := if s1.currentPlayer = .black then s1.blackScore + 3 else s1.blackScore },
         TurnMessage.queenCoveredBonus, true)
      else
        ({ (returnQueenToCenter s1 cx cy) with
             queenPocketed := false
             queenPocketedBy := Option.none
             needsCover := false },
         TurnMessage.failedToCover, false)
    else if !r.pocketedStriker then
      if r.pocketedOwn && !r.pocketedOpponent then
        ({ s1 with
             whiteScore := if s1.currentPlayer = .white then s1.whiteScore + own else s1.whiteScore
             blackScore := if s1.currentPlayer = .black then s1.blackScore + own else s1.blackScore },
         TurnMessage.continueGain own, true)
      else if r.pocketedOpponent then
        (s1, TurnMessage.pocketedOpp, false)
      else
        (s1, m1, false)
    else
      (s1, m1, false)
  match checkWinCondition s2 with
  | some w => { state := s2, message := m2, continuesTurn := continuesTurn, winner := some w }
  | Option.none =>
      if !continuesTurn || r.pocketedStriker then
        { state := switchTurn s2, message := m2, continuesTurn := continuesTurn, winner := Option.none }
      else
        { state := s2, message := m2, continuesTurn := continuesTurn, winner := Option.none }

/-- The scene-state part of `create()`: scores 0, all queen flags
cleared, white to move.  The piece layout built from
`INITIAL_POSITIONS` is abstracted to an arbitrary list, which only
enlarges the set of reachable states. -/
def initialGameState (ps : List BoardPiece) : GameState :=
  { pieces := ps, currentPlayer := .white, whiteScore := 0, blackScore := 0
    queenPocketed := false, queenPocketedBy := Option.none
    queenCovered := false, needsCover := false }

/-- States reachable from board setup by any interleaving of strikes
(the physics changes only `pieces`) and turn resolutions. -/
inductive Reachable : GameState → Prop where
  | boot (ps : List BoardPiece) : Reachable (initialGameState ps)
  | strike {s : GameState} (ps : List BoardPiece) :
      Reachable s → Reachable { s with pieces := ps }
  | resolve {s : GameState} (r : TurnResult) (offset cx cy : ℚ) :
      Reachable s → Reachable (handleTurnEnd s r offset cx cy).state

end Carrom

namespace Carrom

/-! ## AI planner (`CarromAI`, src/unnamed/part_000)

The planner works on floating-point geometry; it is embedded over `ℝ`
(`Real.sqrt`, `Real.cos`, `Real.sin`, and `atan2` via `Complex.arg`),
so these definitions are noncomputable.  Propositional conditions on
reals are decided classically, as in the source's exact float
comparisons. -/

open Classical

/-- `BOARD_SIZE` from `config.ts`. -/
def BOARD_SIZE : ℝ := 700

/-- `PIECE_RADIUS` from `config.ts`. -/
def PIECE_RADIUS : ℝ := 15

/-- `STRIKER_RADIUS` from `config.ts`. -/
def STRIKER_RADIUS : ℝ := 20

/-- `STRIKER_MAX_POWER` from `config.ts`. -/
def STRIKER_MAX_POWER : ℝ := 25

/-- A 2D point (`interface Position`). -/
structure Pos where
  x : ℝ
  y : ℝ

/-- A piece as the AI sees it (`interface Piece` of the AI module). -/
structure AIPiece where
  position : Pos
  type : PieceType
  pocketed : Bool

/-- A candidate shot (`interface Shot`); `targetPiece`/`targetPocket`
are optional in the source (`evaluateDefensiveShot` omits them). -/
structure Shot where
  angle : ℝ
  power : ℝ
  score : ℝ
  targetPiece : Option AIPiece
  targetPocket : Option Pos

/-- The value `calculateShot` returns (`{ angle, power }`). -/
structure AimResult where
  angle : ℝ
  power : ℝ

/-- AI difficulty levels. -/
inductive Difficulty where
  | easy
  | medium
  | hard

/-- The `CarromAI` object's constructor fields. -/
structure CarromAI where
  boardCenterX : ℝ
  boardCenterY : ℝ
  pockets : List Pos
  difficulty : Difficulty

/-- JS `Math.atan2 y x`.  `Complex.arg ⟨x, y⟩` has exactly the
piecewise-arctangent definition of `atan2`, including `atan2 0 0 = 0`. -/
noncomputable def atan2 (y x : ℝ) : ℝ := Complex.arg ⟨x, y⟩

/-- `normalizeAngle`: the source runs two loops,
`while (angle > π) angle -= 2π` then `while (angle < -π) angle += 2π`.
The ceilings below count exactly the iterations each loop performs, so
this closed form agrees with the loop for every real input. -/
noncomputable def normalizeAngle (angle : ℝ) : ℝ :=
  if angle > Real.pi then angle - 2 * Real.pi * ⌈(angle - Real.pi) / (2 * Real.pi)⌉
  else if angle < -Real.pi then angle + 2 * Real.pi * ⌈(-Real.pi - angle) / (2 * Real.pi)⌉
  else angle

/-- The loop body of `CarromAI.checkObstacles` for one piece: the
projection of the piece on the path falls in the open band
`(STRIKER_RADIUS, distance - PIECE_RADIUS)` and its perpendicular
distance to the path is below `STRIKER_RADIUS + PIECE_RADIUS + 5`. -/
noncomputable def blocksPath (fromP toP : Pos) (piece : AIPiece) : Prop :=
  let dx := toP.x - fromP.x
  let dy := toP.y - fromP.y
  let distance := Real.sqrt (dx * dx + dy * dy)
  let nx := dx / distance
  let ny := dy / distance
  let px := piece.position.x - fromP.x
  let py := piece.position.y - fromP.y
  let dot := px * nx + py * ny
  dot > STRIKER_RADIUS ∧ dot < distance - PIECE_RADIUS ∧
    Real.sqrt ((piece.position.x - (fromP.x + nx * dot))^2
      + (piece.position.y - (fromP.y + ny * dot))^2)
      < STRIKER_RADIUS + PIECE_RADIUS + 5

/-- `CarromAI.checkObstacles`: false when the path has length zero,
else true iff some piece of the list blocks the path. -/
noncomputable def checkObstacles (fromP toP : Pos) (pieces : List AIPiece) : Prop :=
  Real.sqrt ((toP.x - fromP.x) * (toP.x - fromP.x) + (toP.y - fromP.y) * (toP.y - fromP.y)) ≠ 0
  ∧ ∃ piece ∈ pieces, blocksPath fromP toP piece

/-- The hit point `evaluateShot` computes: the point on the far side of
the target piece, opposite the pocket direction. -/
noncomputable def hitPointOf (targetPiece : AIPiece) (pocket : Pos) : Pos :=
  let pieceToPocketAngle :=
    atan2 (pocket.y - targetPiece.position.y) (pocket.x - targetPiece.position.x)
  ⟨targetPiece.position.x - Real.cos pieceToPocketAngle * (PIECE_RADIUS + STRIKER_RADIUS),
   targetPiece.position.y - Real.sin pieceToPocketAngle * (PIECE_RADIUS + STRIKER_RADIUS)⟩

/-- The score `evaluateShot` assigns: 100, minus distance-to-hit-point
and piece-to-pocket penalties, minus the angle-difference penalty. -/
noncomputable def shotScore (strikerPos : Pos) (targetPiece : AIPiece) (pocket : Pos) : ℝ :=
  let pieceToPocketAngle :=
    atan2 (pocket.y - targetPiece.position.y) (pocket.x - targetPiece.position.x)
  let hit := hitPointOf targetPiece pocket
  let shotAngle := atan2 (hit.y - strikerPos.y) (hit.x - strikerPos.x)
  let distance := Real.sqrt ((hit.x - strikerPos.x)^2 + (hit.y - strikerPos.y)^2)
  let pieceToPocketDist :=
    Real.sqrt ((pocket.x - targetPiece.position.x)^2 + (pocket.y - targetPiece.position.y)^2)
  100 - distance * 0.1 - pieceToPocketDist * 0.2
    - |normalizeAngle (shotAngle - pieceToPocketAngle)| * 10

/-- `CarromAI.evaluateShot` (part_000 lines 470–545): null when the
path to the hit point is obstructed or the score falls below 20,
otherwise the shot record. -/
noncomputable def evaluateShot (strikerPos : Pos) (targetPiece : AIPiece) (pocket : Pos)
    (allPieces : List AIPiece) : Option Shot :=
  let hit := hitPointOf targetPiece pocket
  let shotAngle := atan2 (hit.y - strikerPos.y) (hit.x - strikerPos.x)
  let distance := Real.sqrt ((hit.x - strikerPos.x)^2 + (hit.y - strikerPos.y)^2)
  if checkObstacles strikerPos hit
      (allPieces.filter fun p => decide (p ≠ targetPiece) && !p.pocketed) then
    Option.none
  else
    let score := shotScore strikerPos targetPiece pocket
    let power := min 1 (distance / (BOARD_SIZE * 0.6))
    if score < 20 then Option.none
    else some { angle := shotAngle, power := power, score := score,
                targetPiece := some targetPiece, targetPocket := some pocket }

/-- `CarromAI.evaluateDefensiveShot`: push an opponent piece that sits
within 80 of its nearest pocket away from that pocket.  With no
pockets the source's `minDist` stays `Infinity` and it returns null. -/
noncomputable def evaluateDefensiveShot (ai : CarromAI) (strikerPos : Pos)
    (targetPiece : AIPiece) (allPieces : List AIPiece) : Option Shot :=
  match ai.pockets with
  | [] => Option.none
  | p0 :: _ =>
    let d0 := Real.sqrt ((p0.x - targetPiece.position.x)^2 + (p0.y - targetPiece.position.y)^2)
    let best := ai.pockets.foldl
      (fun (best : Pos × ℝ) pocket =>
        let d := Real.sqrt ((pocket.x - targetPiece.position.x)^2
          + (pocket.y - targetPiece.position.y)^2)
        if d < best.2 then (pocket, d) else best)
      (p0, d0)
    let nearestPocket := best.1
    let minDist := best.2
    if minDist > 80 then Option.none
    else
      let awayAngle := atan2 (targetPiece.position.y - nearestPocket.y)
        (targetPiece.position.x - nearestPocket.x)
      let hitPointX := targetPiece.position.x - Real.cos awayAngle * (PIECE_RADIUS + STRIKER_RADIUS)
      let hitPointY := targetPiece.position.y - Real.sin awayAngle * (PIECE_RADIUS + STRIKER_RADIUS)
      let shotAngle := atan2 (hitPointY - strikerPos.y) (hitPointX - strikerPos.x)
      let distance := Real.sqrt ((hitPointX - strikerPos.x)^2 + (hitPointY - strikerPos.y)^2)
      if checkObstacles strikerPos ⟨hitPointX, hitPointY⟩
          (allPieces.filter fun p => decide (p ≠ targetPiece) && !p.pocketed) then
        Option.none
      else
        some { angle := shotAngle, power := min 0.8 (distance / (BOARD_SIZE * 0.5)),
               score := 30 + (80 - minDist) * 0.5,
               targetPiece := Option.none, targetPocket := Option.none }

/-- `pieces.filter(p => p.type === aiColor && !p.pocketed)`. -/
def myPiecesOf (pieces : List AIPiece) (aiColor : PlayerColor) : List AIPiece :=
  pieces.filter fun p => p.type = ofPlayer aiColor && !p.pocketed

/-- `pieces.filter(p => p.type !== aiColor && p.type !== 'queen' && !p.pocketed)`. -/
def opponentPiecesOf (pieces : List AIPiece) (aiColor : PlayerColor) : List AIPiece :=
  pieces.filter fun p => !(p.type = ofPlayer aiColor) && !(p.type = PieceType.queen) && !p.pocketed

/-- `pieces.find(p => p.type === 'queen' && !p.pocketed)`. -/
def queenOf (pieces : List AIPiece) : Option AIPiece :=
  pieces.find? fun p => p.type = PieceType.queen && !p.pocketed

/-- The first collection loop of `calculateShot`: every own piece
towards every pocket. -/
noncomputable def myShotsOf (ai : CarromAI) (strikerPos : Pos) (pieces : List AIPiece)
    (aiColor : PlayerColor) : List Shot :=
  (myPiecesOf pieces aiColor).flatMap fun piece =>
    ai.pockets.filterMap fun pocket => evaluateShot strikerPos piece pocket pieces

/-- The queen block of `calculateShot` (part_000 lines 401–410): only
when the queen is unpocketed *and* at most 3 own pieces remain; each
surviving shot's score is scaled by 0.8. -/
noncomputable def queenShotsOf (ai : CarromAI) (strikerPos : Pos) (pieces : List AIPiece)
    (aiColor : PlayerColor) : List Shot :=
  match queenOf pieces with
  | some queen =>
      if (myPiecesOf pieces aiColor).length ≤ 3 then
        ai.pockets.filterMap fun pocket =>
          (evaluateShot strikerPos queen pocket pieces).map fun sh =>
            { sh with score := sh.score * 0.8 }
      else []
  | Option.none => []

/-- The defensive collection loop of `calculateShot`. -/
noncomputable def defensiveShotsOf (ai : CarromAI) (strikerPos : Pos) (pieces : List AIPiece)
    (aiColor : PlayerColor) : List Shot :=
  (opponentPiecesOf pieces aiColor).filterMap fun piece =>
    evaluateDefensiveShot ai strikerPos piece pieces

/-- The complete `possibleShots` list of `calculateShot`: own-piece
shots, then queen shots, then — only if fewer than 3 were collected —
defensive shots. -/
noncomputable def possibleShotsOf (ai : CarromAI) (strikerPos : Pos) (pieces : List AIPiece)
    (aiColor : PlayerColor) : List Shot :=
  let base := myShotsOf ai strikerPos pieces aiColor ++ queenShotsOf ai strikerPos pieces aiColor
  if base.length < 3 then base ++ defensiveShotsOf ai strikerPos pieces aiColor else base

/-- `possibleShots.sort((a, b) => b.score - a.score)`: stable sort,
descending by score. -/
noncomputable def sortShots (l : List Shot) : List Shot :=
  l.mergeSort fun a b => decide (b.score ≤ a.score)

/-- The padding value for list indexing; unreachable for random draws
in `[0, 1)`, which is the range of JS `Math.random()`. -/
def dfltShot : Shot :=
  { angle := 0, power := 0, score := 0, targetPiece := Option.none, targetPocket := Option.none }

/-- `CarromAI.calculateShot` (part_000 lines 379–465).  `rand` is the
stream of `Math.random()` draws, consumed in source order.  The empty
case falls back to aiming at board centre with power 0.5; otherwise a
shot is selected and perturbed according to the difficulty. -/
noncomputable def calculateShot (ai : CarromAI) (rand : ℕ → ℝ) (strikerPos : Pos)
    (pieces : List AIPiece) (aiColor : PlayerColor) : AimResult :=
  let possibleShots := sortShots (possibleShotsOf ai strikerPos pieces aiColor)
  if possibleShots.length = 0 then
    { angle := atan2 (ai.boardCenterY - strikerPos.y) (ai.boardCenterX - strikerPos.x)
      power := 0.5 }
  else
    match ai.difficulty with
    | .easy =>
        let easyIndex :=
          (⌊rand 0 * ((min possibleShots.length ((possibleShots.length + 1) / 2) : ℕ) : ℝ)⌋).toNat
        let sel := possibleShots.getD easyIndex dfltShot
        { angle := sel.angle + (rand 1 - 0.5) * 0.3
          power := max 0.3 (min 1 (sel.power * (0.7 + rand 2 * 0.4))) }
    | .hard =>
        let sel := possibleShots.getD 0 dfltShot
        { angle := sel.angle + (rand 0 - 0.5) * 0.05
          power := max 0.3 (min 1 (sel.power * (0.95 + rand 1 * 0.1))) }
    | .medium =>
        let medIndex := (⌊rand 0 * ((min possibleShots.length 3 : ℕ) : ℝ)⌋).toNat
        let sel := possibleShots.getD medIndex dfltShot
        { angle := sel.angle + (rand 1 - 0.5) * 0.15
          power := max 0.3 (min 1 (sel.power * (0.85 + rand 2 * 0.2))) }

/-- The blocking criterion exactly as the specification words it: the
piece's projection parameter lies in the open interior of the
striker→hit-point segment and its perpendicular distance to the line
is below `STRIKER_RADIUS + PIECE_RADIUS + margin` with margin 5.
Stated from the spec for comparison with the code's `blocksPath`. -/
noncomputable def specPathBlocked (fromP toP : Pos) (piece : AIPiece) : Prop :=
  let dx := toP.x - fromP.x
  let dy := toP.y - fromP.y
  let t := ((piece.position.x - fromP.x) * dx + (piece.position.y - fromP.y) * dy)
    / (dx * dx + dy * dy)
  0 < t ∧ t < 1 ∧
    |dx * (piece.position.y - fromP.y) - dy * (piece.position.x - fromP.x)|
        / Real.sqrt (dx * dx + dy * dy)
      < STRIKER_RADIUS + PIECE_RADIUS + 5

/-- Boot.ts `pointToLineDistance` (lines 1215–1224): distance from a
point to a segment, with the projection parameter clamped to [0, 1]
and `-1` when the segment is degenerate. -/
noncomputable def pointToLineDistance (px py x1 y1 x2 y2 : ℝ) : ℝ :=
  let A := px - x1
  let B := py - y1
  let C := x2 - x1
  let D := y2 - y1
  let dot := A * C + B * D
  let lenSq := C * C + D * D
  let param := if lenSq ≠ 0 then dot / lenSq else -1
  let xx := if param < 0 then x1 else if param > 1 then x2 else x1 + param * C
  let yy := if param < 0 then y1 else if param > 1 then y2 else y1 + param * D
  Real.sqrt ((px - xx)^2 + (py - yy)^2)

/-- Boot.ts `isPathBlocked` (lines 1198–1213). -/
noncomputable def isPathBlocked (pieces : List AIPiece) (startX startY endX endY : ℝ)
    (targetPiece : AIPiece) : Prop :=
  ∃ piece ∈ pieces, piece ≠ targetPiece ∧ piece.pocketed = false ∧
    pointToLineDistance piece.position.x piece.position.y startX startY endX endY
      < PIECE_RADIUS + STRIKER_RADIUS ∧
    ((piece.position.x - startX) * (endX - startX) + (piece.position.y - startY) * (endY - startY))
        / ((endX - startX)^2 + (endY - startY)^2) > 0.1 ∧
    ((piece.position.x - startX) * (endX - startX) + (piece.position.y - startY) * (endY - startY))
        / ((endX - startX)^2 + (endY - startY)^2) < 0.9

/-- The record Boot.ts `evaluateShot` returns. -/
structure BootShot where
  strikerX : ℝ
  velocityX : ℝ
  velocityY : ℝ
  score : ℝ

/-- Boot.ts `evaluateShot` (lines 1180–1195): the scene's own shot
evaluator, used by `calculateBestAIShot`. -/
noncomputable def bootEvaluateShot (pieces : List AIPiece) (strikerX strikerBaseY : ℝ)
    (target : AIPiece) (pocket : Pos) : Option BootShot :=
  let strikerY := strikerBaseY
  let targetX := target.position.x
  let targetY := target.position.y
  let targetToPocketAngle := atan2 (pocket.y - targetY) (pocket.x - targetX)
  let hitPointX := targetX - Real.cos targetToPocketAngle * (PIECE_RADIUS + STRIKER_RADIUS)
  let hitPointY := targetY - Real.sin targetToPocketAngle * (PIECE_RADIUS + STRIKER_RADIUS)
  let strikerToHitAngle := atan2 (hitPointY - strikerY) (hitPointX - strikerX)
  let distanceToHit := Real.sqrt ((hitPointX - strikerX)^2 + (hitPointY - strikerY)^2)
  if isPathBlocked pieces strikerX strikerY hitPointX hitPointY target then Option.none
  else
    let distanceToPocket := Real.sqrt ((pocket.x - targetX)^2 + (pocket.y - targetY)^2)
    let score0 := 100 - distanceToHit * 0.1 - distanceToPocket * 0.2
    let score := if target.type = PieceType.queen then score0 - 20 else score0
    let power := min (distanceToHit / 200) 0.8 * STRIKER_MAX_POWER
    some { strikerX := strikerX, velocityX := Real.cos strikerToHitAngle * power,
           velocityY := Real.sin strikerToHitAngle * power, score := score }

end Carrom

namespace Carrom

/-! ## Concrete inputs used by the witnesses and counterexamples -/

/-- State for the C1 counterexample: white to move, score 5, queen and
one white piece pocketed during the strike, striker fouled too. -/
def c1ceS : GameState :=
  { pieces := [⟨.queen, true, 0, 0⟩, ⟨.white, true, 0, 0⟩, ⟨.white, false, 10, 10⟩,
               ⟨.black, false, 20, 20⟩]
    currentPlayer := .white, whiteScore := 5, blackScore := 2
    queenPocketed := false, queenPocketedBy := Option.none
    queenCovered := false, needsCover := false }

/-- Accumulator for the C1 counterexample: striker, queen and one own
piece pocketed in the same strike. -/
def c1ceR : TurnResult :=
  { pocketedOwn := true, pocketedOpponent := false, pocketedQueen := true
    pocketedStriker := true, piecesThisTurn := [.queen, .white] }

/-- State for the C1 witness: a plain striker foul, no queen involvement. -/
def c1s : GameState :=
  { pieces := [⟨.white, true, 0, 0⟩, ⟨.white, false, 1, 1⟩, ⟨.black, false, 2, 2⟩]
    currentPlayer := .white, whiteScore := 3, blackScore := 0
    queenPocketed := false, queenPocketedBy := Option.none
    queenCovered := false, needsCover := false }

/-- Accumulator for the C1 witness: only the striker went in. -/
def c1r : TurnResult :=
  { pocketedOwn := false, pocketedOpponent := false, pocketedQueen := false
    pocketedStriker := true, piecesThisTurn := [] }

/-- Board-setup state for the C2 witness. -/
def c2s0 : GameState :=
  initialGameState [⟨.queen, true, 0, 0⟩, ⟨.white, true, 0, 0⟩, ⟨.white, false, 1, 1⟩,
                    ⟨.black, false, 2, 2⟩]

/-- First strike of the C2 witness: white pockets the queen together
with an own piece, covering it immediately. -/
def c2r0 : TurnResult :=
  { pocketedOwn := true, pocketedOpponent := false, pocketedQueen := true
    pocketedStriker := false, piecesThisTurn := [.queen, .white] }

/-- The covered state the C2 witness reaches after one resolution. -/
def c2s1 : GameState := (handleTurnEnd c2s0 c2r0 0 400 370).state

/-- Second strike of the C2 witness: nothing pocketed. -/
def c2r1 : TurnResult := resetTurnResult

/-- State for the C4 counterexample: white must cover, has no piece of
its own left on the board. -/
def c4ceS : GameState :=
  { pieces := [⟨.queen, true, 0, 0⟩, ⟨.white, true, 0, 0⟩, ⟨.white, true, 0, 0⟩,
               ⟨.black, false, 20, 20⟩]
    currentPlayer := .white, whiteScore := 4, blackScore := 0
    queenPocketed := true, queenPocketedBy := some .white
    queenCovered := false, needsCover := true }

/-- Accumulator for the C4 counterexample: grace strike pockets nothing. -/
def c4ceR : TurnResult := resetTurnResult

/-- State for the C4 witness: white must cover and still has a piece on
the board. -/
def c4s : GameState :=
  { pieces := [⟨.queen, true, 0, 0⟩, ⟨.white, false, 1, 1⟩, ⟨.black, false, 2, 2⟩]
    currentPlayer := .white, whiteScore := 2, blackScore := 0
    queenPocketed := true, queenPocketedBy := some .white
    queenCovered := false, needsCover := true }

/-- Accumulator for the C4 witness: grace strike pockets nothing. -/
def c4r : TurnResult := resetTurnResult

/-- The unique queen piece of `c4s`. -/
def c4qa : BoardPiece := ⟨.queen, true, 0, 0⟩

/-- State for the C10 counterexample: black to move with score 4. -/
def c10ceS : GameState :=
  { pieces := [⟨.queen, true, 0, 0⟩, ⟨.black, true, 0, 0⟩, ⟨.black, false, 1, 1⟩,
               ⟨.white, false, 2, 2⟩]
    currentPlayer := .black, whiteScore := 0, blackScore := 4
    queenPocketed := false, queenPocketedBy := Option.none
    queenCovered := false, needsCover := false }

/-- Accumulator for the C10 counterexample: a covering strike (queen
plus own piece) that also pockets the striker. -/
def c10ceR : TurnResult :=
  { pocketedOwn := true, pocketedOpponent := false, pocketedQueen := true
    pocketedStriker := true, piecesThisTurn := [.queen, .black] }

/-- State for the C10 witness: white covers the queen cleanly. -/
def c10s : GameState :=
  { pieces := [⟨.queen, true, 0, 0⟩, ⟨.white, true, 0, 0⟩, ⟨.white, false, 1, 1⟩,
               ⟨.black, false, 2, 2⟩]
    currentPlayer := .white, whiteScore := 1, blackScore := 0
    queenPocketed := false, queenPocketedBy := Option.none
    queenCovered := false, needsCover := false }

/-- Accumulator for the C10 witness: queen and one own piece pocketed,
no striker foul. -/
def c10r : TurnResult :=
  { pocketedOwn := true, pocketedOpponent := false, pocketedQueen := true
    pocketedStriker := false, piecesThisTurn := [.queen, .white] }

/-- An unpocketed queen piece for the C6 inputs. -/
def qC6 : AIPiece := ⟨⟨0, 0⟩, .queen, false⟩

/-- C6 counterexample board: the queen is in play but the AI still has
4 own pieces. -/
def piecesC6 : List AIPiece :=
  [qC6, ⟨⟨1, 1⟩, .black, false⟩, ⟨⟨2, 2⟩, .black, false⟩, ⟨⟨3, 3⟩, .black, false⟩,
   ⟨⟨4, 4⟩, .black, false⟩]

/-- C6 witness board: queen in play, 5 own pieces. -/
def piecesC6w : List AIPiece :=
  [qC6, ⟨⟨1, 1⟩, .black, false⟩, ⟨⟨2, 2⟩, .black, false⟩, ⟨⟨3, 3⟩, .black, false⟩,
   ⟨⟨4, 4⟩, .black, false⟩, ⟨⟨5, 5⟩, .black, false⟩]

/-- A planner object for the C6 inputs. -/
def aiC6 : CarromAI := ⟨350, 350, [⟨50, 50⟩], .medium⟩

/-- A planner object for the C7 witness, with no pockets. -/
def aiC7 : CarromAI := ⟨1, 0, [], .medium⟩

/-- Striker position for the C8 geometry. -/
def c8S : Pos := ⟨100, 200⟩

/-- Target piece for the C8 geometry, on the horizontal line y = 200. -/
def c8T : AIPiece := ⟨⟨300, 200⟩, .black, false⟩

/-- Pocket for the C8 geometry, collinear with striker and target. -/
def c8K : Pos := ⟨400, 200⟩

/-- C8 counterexample blocker: strictly inside the striker→hit-point
segment (projection 10 of 165) and only 3 off the line, yet the code
ignores it because its projection is below `STRIKER_RADIUS`. -/
def c8O : AIPiece := ⟨⟨110, 203⟩, .black, false⟩

/-- C8 witness blocker: projection 50, perpendicular offset 10 — inside
the code's blocking band. -/
def c8O2 : AIPiece := ⟨⟨150, 210⟩, .black, false⟩

end Carrom

namespace Carrom

@[simp] lemma penalty_currentPlayer (s : GameState) (o cx cy : ℚ) :
    (returnPieceAsPenalty s o cx cy).currentPlayer = s.currentPlayer := by
  unfold returnPieceAsPenalty; split <;> rfl

@[simp] lemma penalty_queenCovered (s : GameState) (o cx cy : ℚ) :
    (returnPieceAsPenalty s o cx cy).queenCovered = s.queenCovered := by
  unfold returnPieceAsPenalty; split <;> rfl

@[simp] lemma penalty_queenPocketed (s : GameState) (o cx cy : ℚ) :
    (returnPieceAsPenalty s o cx cy).queenPocketed = s.queenPocketed := by
  unfold returnPieceAsPenalty; split <;> rfl

@[simp] lemma penalty_queenPocketedBy (s : GameState) (o cx cy : ℚ) :
    (returnPieceAsPenalty s o cx cy).queenPocketedBy = s.queenPocketedBy := by
  unfold returnPieceAsPenalty; split <;> rfl

@[simp] lemma penalty_needsCover (s : GameState) (o cx cy : ℚ) :
    (returnPieceAsPenalty s o cx cy).needsCover = s.needsCover := by
  unfold returnPieceAsPenalty; split <;> rfl

@[simp] lemma switchTurn_fields (s : GameState) :
    (switchTurn s).currentPlayer = otherPlayer s.currentPlayer ∧
    (switchTurn s).queenCovered = s.queenCovered ∧
    (switchTurn s).needsCover = s.needsCover := ⟨rfl, rfl, rfl⟩

/-- C5: `checkWinCondition` never declares a winner while the queen
is pocketed and uncovered; and any declared winner has no unpocketed
piece of their colour left while the queen is not pocketed-uncovered. -/
theorem win_blocked_by_uncovered_queen (s : GameState) :
    (s.queenPocketed = true → s.queenCovered = false → checkWinCondition s = Option.none)
    ∧ (∀ w, checkWinCondition s = some w →
        (s.pieces.filter fun p => p.type = ofPlayer w && !p.pocketed).length = 0
        ∧ ¬(s.queenPocketed = true ∧ s.queenCovered = false)) := by
  constructor
  · intro hp hc
    unfold checkWinCondition
    simp [hp, hc]
  · intro w hw
    unfold checkWinCondition at hw
    by_cases h1 : (s.pieces.filter fun p => p.type = PieceType.white && !p.pocketed).length = 0
      ∧ (s.queenCovered = true ∨ ¬s.queenPocketed = true)
    · rw [if_pos h1] at hw
      by_cases h2 : s.queenPocketed = true ∧ ¬s.queenCovered = true
      · rw [if_pos h2] at hw; exact absurd hw (by simp)
      · rw [if_neg h2] at hw
        have hww : w = .white := by simpa using hw.symm
        subst hww
        exact ⟨h1.1, by simpa using h2⟩
    · rw [if_neg h1] at hw
      by_cases h3 : (s.pieces.filter fun p => p.type = PieceType.black && !p.pocketed).length = 0
        ∧ (s.queenCovered = true ∨ ¬s.queenPocketed = true)
      · rw [if_pos h3] at hw
        by_cases h4 : s.queenPocketed = true ∧ ¬s.queenCovered = true
        · rw [if_pos h4] at hw; exact absurd hw (by simp)
        · rw [if_neg h4] at hw
          have hww : w = .black := by simpa using hw.symm
          subst hww
          exact ⟨h3.1, by simpa using h4⟩
      · rw [if_neg h3] at hw; exact absurd hw (by simp)

/-- Witness for C5 at a concrete uncovered-queen state where white has
no piece left on the board: no winner is declared. -/
theorem win_blocked_by_uncovered_queen_witness :
    checkWinCondition
      { pieces := [⟨.queen, true, 0, 0⟩, ⟨.white, true, 0, 0⟩, ⟨.black, false, 1, 1⟩]
        currentPlayer := .white, whiteScore := 9, blackScore := 0
        queenPocketed := true, queenPocketedBy := some .white
        queenCovered := false, needsCover := true } = Option.none :=
  (win_blocked_by_uncovered_queen _).1 rfl rfl

/-- C3: a strike that pockets only the current player's own pieces
(no striker, no opponent piece, no queen this strike, no pending cover)
adds exactly the number of pocketed pieces to that player's score, the
turn does not pass, and `continuesTurn` is set. -/
theorem own_only_strike_scores_and_continues
    (s : GameState) (r : TurnResult) (offset cx cy : ℚ)
    (hstriker : r.pocketedStriker = false)
    (hqueen : r.pocketedQueen = false)
    (hown : r.pocketedOwn = true)
    (hopp : r.pocketedOpponent = false)
    (hcover : s.needsCover = false)
    (hall : ∀ t ∈ r.piecesThisTurn, t = ofPlayer s.currentPlayer) :
    scoreOf (handleTurnEnd s r offset cx cy).state s.currentPlayer
      = scoreOf s s.currentPlayer + r.piecesThisTurn.length
    ∧ (handleTurnEnd s r offset cx cy).state.currentPlayer = s.currentPlayer
    ∧ (handleTurnEnd s r offset cx cy).continuesTurn = true := by
  have hcount : ownThisTurn r s.currentPlayer = r.piecesThisTurn.length := by
    unfold ownThisTurn
    rw [List.filter_length_eq_length.mpr]
    intro t ht
    simpa using hall t ht
  rw [← hcount]
  unfold handleTurnEnd
  simp only [hstriker, hqueen, hown, hopp, hcover, Bool.false_eq_true, if_false,
    Bool.false_and, Bool.not_false, Bool.and_true, Bool.true_and, if_true]
  cases hw : checkWinCondition
      { s with
        whiteScore := if s.currentPlayer = .white then s.whiteScore + ownThisTurn r s.currentPlayer else s.whiteScore
        blackScore := if s.currentPlayer = .black then s.blackScore + ownThisTurn r s.currentPlayer else s.blackScore } <;>
    cases hc : s.currentPlayer <;>
    simp_all [scoreOf, switchTurn]

/-- Witness for C3: white pockets two of their own pieces and nothing
else; the score goes from 4 to 6 and white keeps the turn. -/
theorem own_only_strike_witness :
    scoreOf (handleTurnEnd
        { pieces := [⟨.queen, false, 0, 0⟩, ⟨.white, false, 2, 2⟩, ⟨.black, false, 1, 1⟩]
          currentPlayer := .white, whiteScore := 4, blackScore := 0
          queenPocketed := false, queenPocketedBy := Option.none
          queenCovered := false, needsCover := false }
        { pocketedOwn := true, pocketedOpponent := false, pocketedQueen := false
          pocketedStriker := false, piecesThisTurn := [.white, .white] } 0 400 370).state .white = 6
    ∧ (handleTurnEnd
        { pieces := [⟨.queen, false, 0, 0⟩, ⟨.white, false, 2, 2⟩, ⟨.black, false, 1, 1⟩]
          currentPlayer := .white, whiteScore := 4, blackScore := 0
          queenPocketed := false, queenPocketedBy := Option.none
          queenCovered := false, needsCover := false }
        { pocketedOwn := true, pocketedOpponent := false, pocketedQueen := false
          pocketedStriker := false, piecesThisTurn := [.white, .white] } 0 400 370).state.currentPlayer = .white := by
  have h := own_only_strike_scores_and_continues
    { pieces := [⟨.queen, false, 0, 0⟩, ⟨.white, false, 2, 2⟩, ⟨.black, false, 1, 1⟩]
      currentPlayer := .white, whiteScore := 4, blackScore := 0
      queenPocketed := false, queenPocketedBy := Option.none
      queenCovered := false, needsCover := false }
    { pocketedOwn := true, pocketedOpponent := false, pocketedQueen := false
      pocketedStriker := false, piecesThisTurn := [.white, .white] } 0 400 370
    rfl rfl rfl rfl rfl (by decide)
  exact ⟨h.1, h.2.1⟩

end Carrom

namespace Carrom

lemma scoreOf_switchTurn (s : GameState) (c : PlayerColor) :
    scoreOf (switchTurn s) c = scoreOf s c := by cases c <;> rfl

lemma updateFirst_filter_length_of_any {α : Type} {p : α → Bool} {f : α → α}
    (hf : ∀ a, p a = true → p (f a) = false) :
    ∀ l : List α, l.any p = true →
      ((updateFirst p f l).filter p).length + 1 = (l.filter p).length := by
  intro l
  induction l with
  | nil => intro h; simp at h
  | cons a as ih =>
      intro h
      by_cases hp : p a = true
      · simp [updateFirst, hp, hf a hp]
      · have hp' : p a = false := by simpa using hp
        have h' : as.any p = true := by simpa [hp'] using h
        simp [updateFirst, hp', ih h']

lemma updateFirst_filter_of_disjoint {α : Type} {p q : α → Bool} {f : α → α}
    (h1 : ∀ a, p a = true → q a = false) (h2 : ∀ a, p a = true → q (f a) = false) :
    ∀ l : List α, (updateFirst p f l).filter q = l.filter q := by
  intro l
  induction l with
  | nil => rfl
  | cons a as ih =>
      by_cases hp : p a = true
      · simp [updateFirst, hp, h1 a hp, h2 a hp]
      · have hp' : p a = false := by simpa using hp
        rw [updateFirst, if_neg (by simp [hp']), List.filter_cons, List.filter_cons, ih]

lemma updateFirst_filter_singleton {α : Type} {p : α → Bool} {f : α → α}
    (hpf : ∀ a, p a = true → p (f a) = true) :
    ∀ (l : List α) (a : α), l.filter p = [a] → (updateFirst p f l).filter p = [f a] := by
  intro l
  induction l with
  | nil => intro a h; simp at h
  | cons b bs ih =>
      intro a h
      by_cases hp : p b = true
      · rw [List.filter_cons_of_pos hp] at h
        obtain ⟨hba, hbs⟩ := List.cons_eq_cons.mp h
        subst hba
        simp [updateFirst, hp, hpf b hp, hbs]
      · have hp' : p b = false := by simpa using hp
        rw [List.filter_cons_of_neg (by simp [hp'])] at h
        simp [updateFirst, hp', ih a h]

lemma penalty_score_of_any (s : GameState) (o cx cy : ℚ)
    (h : s.pieces.any (isPocketedOwn s.currentPlayer) = true) :
    scoreOf (returnPieceAsPenalty s o cx cy) s.currentPlayer
      = scoreOf s s.currentPlayer - 1 := by
  unfold returnPieceAsPenalty
  rw [if_pos h]
  cases hc : s.currentPlayer <;> simp [scoreOf, hc]

lemma penalty_pocketedOwn_count (s : GameState) (o cx cy : ℚ)
    (h : s.pieces.any (isPocketedOwn s.currentPlayer) = true) :
    ((returnPieceAsPenalty s o cx cy).pieces.filter (isPocketedOwn s.currentPlayer)).length + 1
      = (s.pieces.filter (isPocketedOwn s.currentPlayer)).length := by
  unfold returnPieceAsPenalty
  rw [if_pos h]
  exact updateFirst_filter_length_of_any (fun a _ => by simp [isPocketedOwn]) s.pieces h

lemma penalty_queen_filter (s : GameState) (o cx cy : ℚ) :
    (returnPieceAsPenalty s o cx cy).pieces.filter (fun p => p.type = PieceType.queen)
      = s.pieces.filter (fun p => p.type = PieceType.queen) := by
  unfold returnPieceAsPenalty
  split
  · refine updateFirst_filter_of_disjoint ?_ ?_ s.pieces <;>
      · intro a ha
        have ht : a.type = ofPlayer s.currentPlayer := by
          simpa [isPocketedOwn] using (Bool.and_eq_true _ _ |>.mp ha).1
        cases hc : s.currentPlayer <;> simp_all [ofPlayer]
  · rfl

lemma penalty_score_le (s : GameState) (o cx cy : ℚ) (c : PlayerColor) :
    scoreOf (returnPieceAsPenalty s o cx cy) c ≤ scoreOf s c := by
  unfold returnPieceAsPenalty
  split
  · cases c <;> cases hc : s.currentPlayer <;> simp [scoreOf]
  · exact le_refl _

/-- Queen-state invariant maintained by the game: a covered queen has
no pending cover obligation. -/
def StateInv (s : GameState) : Prop := s.queenCovered = true → s.needsCover = false

lemma inv_step (s : GameState) (r : TurnResult) (offset cx cy : ℚ) (h : StateInv s) :
    StateInv (handleTurnEnd s r offset cx cy).state := by
  unfold StateInv at *
  cases hst : r.pocketedStriker <;>
  cases h1 : (r.pocketedQueen && !s.queenCovered) <;>
  cases h2 : (s.needsCover && decide (s.queenPocketedBy = some s.currentPlayer)) <;>
  by_cases h3 : 0 < ownThisTurn r s.currentPlayer <;>
  cases h4 : (r.pocketedOwn && !r.pocketedOpponent) <;>
  cases h5 : r.pocketedOpponent <;>
  unfold handleTurnEnd <;>
  simp only [hst, h1, h2, h3, h4, h5, penalty_queenCovered, penalty_needsCover,
    penalty_queenPocketedBy, penalty_currentPlayer, Bool.false_eq_true, Bool.true_eq_false,
    if_true, if_false, ite_true, ite_false, Bool.not_true, Bool.not_false, Bool.true_or,
    Bool.or_true, Bool.false_or, Bool.or_false, if_pos, gt_iff_lt] <;>
  split <;> simp_all [switchTurn]

lemma reachable_inv {s : GameState} (h : Reachable s) : StateInv s := by
  induction h with
  | boot ps => intro hc; cases hc
  | strike ps _ ih => exact ih
  | resolve r offset cx cy _ ih => exact inv_step _ r offset cx cy ih

end Carrom

namespace Carrom

/-- C1 counterexample: a strike that pockets the striker, the queen and
an own piece.  The striker foul does not override the queen-cover gain:
white's score rises from 5 to 7 (the cover bonus of 3 net of the
penalty deduction of 1), contradicting the claim that no score increase
from the same strike is applied. -/
theorem striker_foul_override_counterexample :
    c1ceR.pocketedStriker = true
    ∧ c1ceS.whiteScore = 5
    ∧ (handleTurnEnd c1ceS c1ceR 0 400 370).state.whiteScore = 7
    ∧ (handleTurnEnd c1ceS c1ceR 0 400 370).message = TurnMessage.queenCoveredBonus := by
  decide

/-- C1 (amended): when the striker is pocketed and the queen branches
do not fire, and the current player has at least one pocketed own piece,
resolution deducts exactly 1 point (floored at zero, which is the `ℕ`
truncated subtraction), returns exactly one pocketed own-colour piece
to the board, forces `continuesTurn` to false, and — when no winner is
declared — passes the turn to the opponent.  A simultaneous queen gain
is *not* overridden (see the counterexample), and with no pocketed own
piece the penalty does nothing. -/
theorem striker_foul_penalty
    (s : GameState) (r : TurnResult) (offset cx cy : ℚ)
    (hstriker : r.pocketedStriker = true)
    (hq1 : ¬(r.pocketedQueen = true ∧ s.queenCovered = false))
    (hq2 : ¬(s.needsCover = true ∧ s.queenPocketedBy = some s.currentPlayer))
    (hex : s.pieces.any (isPocketedOwn s.currentPlayer) = true) :
    scoreOf (handleTurnEnd s r offset cx cy).state s.currentPlayer
      = scoreOf s s.currentPlayer - 1
    ∧ ((handleTurnEnd s r offset cx cy).state.pieces.filter (isPocketedOwn s.currentPlayer)).length + 1
      = (s.pieces.filter (isPocketedOwn s.currentPlayer)).length
    ∧ (handleTurnEnd s r offset cx cy).continuesTurn = false
    ∧ ((handleTurnEnd s r offset cx cy).winner = Option.none →
        (handleTurnEnd s r offset cx cy).state.currentPlayer = otherPlayer s.currentPlayer) := by
  have hg1 : (r.pocketedQueen && !s.queenCovered) = false := by
    cases hpq : r.pocketedQueen <;> cases hcv : s.queenCovered <;> simp_all
  have hg2 : (s.needsCover && decide (s.queenPocketedBy = some s.currentPlayer)) = false := by
    cases hnc : s.needsCover
    · simp
    · by_cases hby : s.queenPocketedBy = some s.currentPlayer
      · exact absurd ⟨hnc, hby⟩ hq2
      · simp [hby]
  unfold handleTurnEnd
  simp only [hstriker, if_true, penalty_queenCovered, penalty_needsCover,
    penalty_queenPocketedBy, penalty_currentPlayer, hg1, hg2, Bool.false_eq_true, if_false,
    Bool.not_true]
  cases hw : checkWinCondition (returnPieceAsPenalty s offset cx cy)
  all_goals simp only [Bool.not_false, Bool.or_true, if_true]
  · refine ⟨?_, ?_, trivial, ?_⟩
    · rw [scoreOf_switchTurn]; exact penalty_score_of_any s offset cx cy hex
    · exact penalty_pocketedOwn_count s offset cx cy hex
    · intro _; simp [switchTurn]
  · refine ⟨penalty_score_of_any s offset cx cy hex,
      penalty_pocketedOwn_count s offset cx cy hex, trivial, ?_⟩
    intro h; exact absurd h (by simp)

/-- Witness for the amended C1 at a plain striker foul: score 3 → 2,
the pocketed white piece returns, and the turn passes to black. -/
theorem striker_foul_penalty_witness :
    scoreOf (handleTurnEnd c1s c1r 0 400 370).state c1s.currentPlayer
      = scoreOf c1s c1s.currentPlayer - 1
    ∧ ((handleTurnEnd c1s c1r 0 400 370).state.pieces.filter (isPocketedOwn c1s.currentPlayer)).length + 1
      = (c1s.pieces.filter (isPocketedOwn c1s.currentPlayer)).length
    ∧ (handleTurnEnd c1s c1r 0 400 370).continuesTurn = false
    ∧ ((handleTurnEnd c1s c1r 0 400 370).winner = Option.none →
        (handleTurnEnd c1s c1r 0 400 370).state.currentPlayer = otherPlayer c1s.currentPlayer) :=
  striker_foul_penalty c1s c1r 0 400 370 (by decide) (by decide) (by decide) (by decide)

/-- C2: once the queen is covered, in any reachable state, no further
strike resolution can uncover it, re-impose a cover obligation, change
the queen ownership record or the `queenPocketed` flag, award the cover
bonus message again, or touch the queen piece on the board. -/
theorem queen_cover_permanent
    (s : GameState) (hr : Reachable s) (hcov : s.queenCovered = true)
    (r : TurnResult) (offset cx cy : ℚ) :
    (handleTurnEnd s r offset cx cy).state.queenCovered = true
    ∧ (handleTurnEnd s r offset cx cy).state.needsCover = false
    ∧ (handleTurnEnd s r offset cx cy).state.queenPocketed = s.queenPocketed
    ∧ (handleTurnEnd s r offset cx cy).state.queenPocketedBy = s.queenPocketedBy
    ∧ (handleTurnEnd s r offset cx cy).message ≠ TurnMessage.queenCoveredBonus
    ∧ (handleTurnEnd s r offset cx cy).state.pieces.filter (fun p => p.type = PieceType.queen)
        = s.pieces.filter (fun p => p.type = PieceType.queen) := by
  have hnc : s.needsCover = false := reachable_inv hr hcov
  have hg1 : (r.pocketedQueen && !s.queenCovered) = false := by simp [hcov]
  have hg2 : (s.needsCover && decide (s.queenPocketedBy = some s.currentPlayer)) = false := by
    simp [hnc]
  cases hst : r.pocketedStriker <;>
  cases h4 : (r.pocketedOwn && !r.pocketedOpponent) <;>
  cases h5 : r.pocketedOpponent <;>
  unfold handleTurnEnd <;>
  simp only [hst, hg1, hg2, h4, h5, penalty_queenCovered, penalty_needsCover,
    penalty_queenPocketedBy, penalty_currentPlayer, Bool.false_eq_true, Bool.true_eq_false,
    if_true, if_false, ite_true, ite_false, Bool.not_true, Bool.not_false, Bool.true_or,
    Bool.or_true, Bool.false_or, Bool.or_false] <;>
  split <;>
  simp_all [switchTurn, penalty_queen_filter, penalty_queenPocketed]

/-- Witness for C2: reach a covered state in one resolution from board
setup, then check an arbitrary follow-up strike leaves it covered. -/
theorem queen_cover_permanent_witness :
    (handleTurnEnd c2s1 c2r1 0 400 370).state.queenCovered = true
    ∧ (handleTurnEnd c2s1 c2r1 0 400 370).state.needsCover = false
    ∧ (handleTurnEnd c2s1 c2r1 0 400 370).state.queenPocketed = c2s1.queenPocketed
    ∧ (handleTurnEnd c2s1 c2r1 0 400 370).state.queenPocketedBy = c2s1.queenPocketedBy
    ∧ (handleTurnEnd c2s1 c2r1 0 400 370).message ≠ TurnMessage.queenCoveredBonus
    ∧ (handleTurnEnd c2s1 c2r1 0 400 370).state.pieces.filter (fun p => p.type = PieceType.queen)
        = c2s1.pieces.filter (fun p => p.type = PieceType.queen) :=
  queen_cover_permanent c2s1 (Reachable.resolve c2r0 0 400 370 (Reachable.boot _))
    (by decide) c2r1 0 400 370

end Carrom

namespace Carrom

/-- C4 counterexample: on the failed-to-cover strike of a player whose
own pieces are all pocketed, the cleared queen completes the win
condition — the game ends with the *current* player as winner and the
turn does not pass to the other player, contrary to the claim. -/
theorem failed_cover_win_counterexample :
    c4ceS.needsCover = true
    ∧ c4ceS.queenPocketedBy = some c4ceS.currentPlayer
    ∧ c4ceR.pocketedQueen = false
    ∧ ownThisTurn c4ceR c4ceS.currentPlayer = 0
    ∧ (handleTurnEnd c4ceS c4ceR 0 400 370).winner = some PlayerColor.white
    ∧ (handleTurnEnd c4ceS c4ceR 0 400 370).state.currentPlayer = PlayerColor.white := by
  decide

/-- C4 (amended): on a grace strike that pockets no own piece while the
current player must cover, the queen returns to board centre
un-pocketed, all queen ownership state is cleared, no bonus is awarded
(the score never increases, the message is the failed-to-cover one),
and the turn passes to the other player *unless* the cleared queen
completes a win, in which case the game ends at once. -/
theorem failed_cover_returns_queen
    (s : GameState) (r : TurnResult) (offset cx cy : ℚ) (qa : BoardPiece)
    (hnc : s.needsCover = true)
    (hby : s.queenPocketedBy = some s.currentPlayer)
    (hq : r.pocketedQueen = false)
    (hown : ownThisTurn r s.currentPlayer = 0)
    (hqa : s.pieces.filter (fun p => p.type = PieceType.queen) = [qa]) :
    (handleTurnEnd s r offset cx cy).state.queenPocketed = false
    ∧ (handleTurnEnd s r offset cx cy).state.queenPocketedBy = Option.none
    ∧ (handleTurnEnd s r offset cx cy).state.needsCover = false
    ∧ (handleTurnEnd s r offset cx cy).message = TurnMessage.failedToCover
    ∧ (handleTurnEnd s r offset cx cy).state.pieces.filter (fun p => p.type = PieceType.queen)
        = [{ qa with pocketed := false, x := cx, y := cy }]
    ∧ scoreOf (handleTurnEnd s r offset cx cy).state s.currentPlayer ≤ scoreOf s s.currentPlayer
    ∧ ((handleTurnEnd s r offset cx cy).winner = Option.none →
        (handleTurnEnd s r offset cx cy).state.currentPlayer = otherPlayer s.currentPlayer) := by
  have hqf : ∀ s1 : GameState, s1.pieces.filter (fun p => p.type = PieceType.queen) = [qa] →
      (returnQueenToCenter s1 cx cy).pieces.filter (fun p => p.type = PieceType.queen)
        = [{ qa with pocketed := false, x := cx, y := cy }] := by
    intro s1 h1
    exact updateFirst_filter_singleton (fun a ha => by simpa using ha) s1.pieces qa h1
  cases hst : r.pocketedStriker
  · unfold handleTurnEnd
    simp only [hst, Bool.false_eq_true, if_false, hq, Bool.false_and, hnc, hby, Bool.true_and,
      decide_eq_true_eq, if_true, hown, gt_iff_lt, lt_irrefl, Bool.not_false, Bool.true_or,
      Bool.or_true]
    cases hw : checkWinCondition
        { (returnQueenToCenter s cx cy) with
          queenPocketed := false, queenPocketedBy := Option.none, needsCover := false } <;>
      simp_all [switchTurn, scoreOf_switchTurn, returnQueenToCenter, scoreOf, hqf]
  · have hpf : (returnPieceAsPenalty s offset cx cy).pieces.filter
        (fun p => p.type = PieceType.queen) = [qa] := by
      rw [penalty_queen_filter]; exact hqa
    unfold handleTurnEnd
    simp only [hst, if_true, penalty_queenCovered, penalty_needsCover, penalty_queenPocketedBy,
      penalty_currentPlayer, hq, Bool.false_and, Bool.false_eq_true, if_false, hnc, hby,
      Bool.true_and, decide_eq_true_eq, hown, gt_iff_lt, lt_irrefl, Bool.not_false,
      Bool.true_or, Bool.or_true]
    cases hw : checkWinCondition
        { (returnQueenToCenter (returnPieceAsPenalty s offset cx cy) cx cy) with
          queenPocketed := false, queenPocketedBy := Option.none, needsCover := false } <;>
      simp_all [switchTurn, scoreOf_switchTurn, returnQueenToCenter, scoreOf, hqf] <;>
      exact penalty_score_le s offset cx cy s.currentPlayer

/-- Witness for the amended C4: white fails to cover while still having
a piece on the board; the queen returns to centre and black gets the
turn. -/
theorem failed_cover_returns_queen_witness :
    (handleTurnEnd c4s c4r 0 400 370).state.queenPocketed = false
    ∧ (handleTurnEnd c4s c4r 0 400 370).state.queenPocketedBy = Option.none
    ∧ (handleTurnEnd c4s c4r 0 400 370).state.needsCover = false
    ∧ (handleTurnEnd c4s c4r 0 400 370).message = TurnMessage.failedToCover
    ∧ (handleTurnEnd c4s c4r 0 400 370).state.pieces.filter (fun p => p.type = PieceType.queen)
        = [{ c4qa with pocketed := false, x := 400, y := 370 }]
    ∧ scoreOf (handleTurnEnd c4s c4r 0 400 370).state c4s.currentPlayer ≤ scoreOf c4s c4s.currentPlayer
    ∧ ((handleTurnEnd c4s c4r 0 400 370).winner = Option.none →
        (handleTurnEnd c4s c4r 0 400 370).state.currentPlayer = otherPlayer c4s.currentPlayer) :=
  failed_cover_returns_queen c4s c4r 0 400 370 c4qa
    (by decide) (by decide) (by decide) (by decide) (by decide)

/-- C10 counterexample: a covering strike that also pockets the striker
increases black's score by 2, not by the queen bonus of 3 — the penalty
deduction combines with the bonus. -/
theorem covering_bonus_counterexample :
    c10ceS.blackScore = 4
    ∧ c10ceR.pocketedQueen = true
    ∧ (0 < ownThisTurn c10ceR c10ceS.currentPlayer)
    ∧ (handleTurnEnd c10ceS c10ceR 0 400 370).message = TurnMessage.queenCoveredBonus
    ∧ (handleTurnEnd c10ceS c10ceR 0 400 370).state.blackScore = 6 := by
  decide

/-- C10 (amended): on a covering strike without a striker foul — the
queen pocketed together with at least one own piece, or at least one
own piece on the grace strike while the current player must cover —
the covering player's score increases by exactly the queen bonus of 3;
the own pieces pocketed in the same strike are not additionally added. -/
theorem covering_strike_bonus
    (s : GameState) (r : TurnResult) (offset cx cy : ℚ)
    (hstriker : r.pocketedStriker = false)
    (hcase : (r.pocketedQueen = true ∧ s.queenCovered = false ∧ 0 < ownThisTurn r s.currentPlayer)
      ∨ (¬(r.pocketedQueen = true ∧ s.queenCovered = false) ∧ s.needsCover = true
         ∧ s.queenPocketedBy = some s.currentPlayer ∧ 0 < ownThisTurn r s.currentPlayer)) :
    scoreOf (handleTurnEnd s r offset cx cy).state s.currentPlayer
      = scoreOf s s.currentPlayer + 3
    ∧ (handleTurnEnd s r offset cx cy).message = TurnMessage.queenCoveredBonus
    ∧ (handleTurnEnd s r offset cx cy).state.queenCovered = true
    ∧ (handleTurnEnd s r offset cx cy).state.needsCover = false := by
  rcases hcase with ⟨hpq, hcv, hown⟩ | ⟨hq1, hnc, hby, hown⟩
  · unfold handleTurnEnd
    simp only [hstriker, Bool.false_eq_true, if_false, hpq, hcv, Bool.not_false, Bool.and_true,
      Bool.true_and, if_true, hown, gt_iff_lt]
    cases hw : checkWinCondition
        { s with queenPocketed := true, queenPocketedBy := some s.currentPlayer,
                 queenCovered := true, needsCover := false
                 whiteScore := if s.currentPlayer = .white then s.whiteScore + 3 else s.whiteScore
                 blackScore := if s.currentPlayer = .black then s.blackScore + 3 else s.blackScore } <;>
      cases hc : s.currentPlayer <;>
      simp_all [scoreOf, switchTurn]
  · have hg1 : (r.pocketedQueen && !s.queenCovered) = false := by
      cases hb : r.pocketedQueen <;> cases hc : s.queenCovered <;> simp_all
    unfold handleTurnEnd
    simp only [hstriker, Bool.false_eq_true, if_false, hg1, hnc, hby, Bool.true_and,
      decide_eq_true_eq, if_true, hown, gt_iff_lt, Bool.true_eq_false, Bool.and_self]
    cases hw : checkWinCondition
        { s with queenCovered := true, needsCover := false
                 whiteScore := if s.currentPlayer = .white then s.whiteScore + 3 else s.whiteScore
                 blackScore := if s.currentPlayer = .black then s.blackScore + 3 else s.blackScore } <;>
      cases hc : s.currentPlayer <;>
      simp_all [scoreOf, switchTurn]

/-- Witness for the amended C10: white covers the queen cleanly, the
score goes from 1 to 4 and exactly the bonus message is shown. -/
theorem covering_strike_bonus_witness :
    scoreOf (handleTurnEnd c10s c10r 0 400 370).state c10s.currentPlayer
      = scoreOf c10s c10s.currentPlayer + 3
    ∧ (handleTurnEnd c10s c10r 0 400 370).message = TurnMessage.queenCoveredBonus
    ∧ (handleTurnEnd c10s c10r 0 400 370).state.queenCovered = true
    ∧ (handleTurnEnd c10s c10r 0 400 370).state.needsCover = false :=
  covering_strike_bonus c10s c10r 0 400 370 (by decide)
    (Or.inl ⟨by decide, by decide, by decide⟩)

end Carrom

namespace Carrom

/-- C6 counterexample: the queen is in play (unpocketed) but the AI
holds 4 pieces, and `calculateShot`'s queen block contributes no
candidate at all — being in play alone does not suffice. -/
theorem queen_candidate_counterexample :
    queenOf piecesC6 = some qC6
    ∧ (myPiecesOf piecesC6 PlayerColor.black).length = 4
    ∧ queenShotsOf aiC6 ⟨350, 650⟩ piecesC6 PlayerColor.black = [] :=
  ⟨rfl, rfl, rfl⟩

/-- C6 (amended): the queen enters the candidate set (scores scaled by
0.8) exactly when it is unpocketed *and* the AI holds at most 3
remaining pieces; with more than 3 pieces the queen block contributes
nothing, whatever the queen's state.  (`CarromAI` has no notion of the
queen being uncovered; the condition is a conjunction, not a
disjunction.) -/
theorem queen_candidate_rule
    (ai : CarromAI) (strikerPos : Pos) (pieces : List AIPiece) (aiColor : PlayerColor)
    (q : AIPiece) (hq : queenOf pieces = some q) :
    (3 < (myPiecesOf pieces aiColor).length →
      queenShotsOf ai strikerPos pieces aiColor = [])
    ∧ ((myPiecesOf pieces aiColor).length ≤ 3 →
      queenShotsOf ai strikerPos pieces aiColor
        = ai.pockets.filterMap fun pocket =>
            (evaluateShot strikerPos q pocket pieces).map fun sh =>
              { sh with score := sh.score * 0.8 }) := by
  unfold queenShotsOf
  rw [hq]
  dsimp only
  constructor
  · intro h
    rw [if_neg (by omega)]
  · intro h
    rw [if_pos h]

/-- Witness for the amended C6: with 5 own pieces the queen block is
empty even though the queen is in play. -/
theorem queen_candidate_rule_witness :
    queenShotsOf aiC6 ⟨350, 650⟩ piecesC6w PlayerColor.black = [] :=
  (queen_candidate_rule aiC6 ⟨350, 650⟩ piecesC6w PlayerColor.black qC6 rfl).1 (by decide)

/-- C7: when every candidate was rejected (the collected list is
empty), `calculateShot` does not fail: it returns the shot aiming from
the striker position at board centre with fixed power 0.5, for every
random stream and difficulty. -/
theorem calculateShot_fallback
    (ai : CarromAI) (rand : ℕ → ℝ) (strikerPos : Pos) (pieces : List AIPiece)
    (aiColor : PlayerColor)
    (h : possibleShotsOf ai strikerPos pieces aiColor = []) :
    calculateShot ai rand strikerPos pieces aiColor
      = { angle := atan2 (ai.boardCenterY - strikerPos.y) (ai.boardCenterX - strikerPos.x)
          power := 0.5 } := by
  unfold calculateShot sortShots
  rw [h]
  simp

/-- Witness for C7: an empty board yields no candidates and the
planner falls back to centre aim with power 0.5. -/
theorem calculateShot_fallback_witness :
    possibleShotsOf aiC7 ⟨0, 0⟩ [] PlayerColor.black = []
    ∧ calculateShot aiC7 (fun _ => 0) ⟨0, 0⟩ [] PlayerColor.black
      = { angle := atan2 (aiC7.boardCenterY - (0 : ℝ)) (aiC7.boardCenterX - (0 : ℝ))
          power := 0.5 } :=
  ⟨rfl, calculateShot_fallback aiC7 (fun _ => 0) ⟨0, 0⟩ [] PlayerColor.black rfl⟩

/-- C9: both shot evaluators — `CarromAI.evaluateShot` and the scene's
`evaluateShot` in Boot.ts — are pure functions of their arguments: two
calls on identical inputs give identical results (same angle, power and
score, or null in both runs).  Neither consults randomness: randomness
enters the planner only in `calculateShot`'s selection phase, modelled
by the separate `rand` stream argument there. -/
theorem evaluateShot_deterministic
    (s s' : Pos) (t t' : AIPiece) (k k' : Pos) (l l' : List AIPiece)
    (pieces pieces' : List AIPiece) (sx sx' sy sy' : ℝ) (bt bt' : AIPiece) (bk bk' : Pos)
    (h1 : s = s') (h2 : t = t') (h3 : k = k') (h4 : l = l')
    (h5 : pieces = pieces') (h6 : sx = sx') (h7 : sy = sy') (h8 : bt = bt') (h9 : bk = bk') :
    evaluateShot s t k l = evaluateShot s' t' k' l'
    ∧ bootEvaluateShot pieces sx sy bt bk = bootEvaluateShot pieces' sx' sy' bt' bk' := by
  subst h1 h2 h3 h4 h5 h6 h7 h8 h9
  exact ⟨rfl, rfl⟩

/-- Witness for C9 at concrete arguments. -/
theorem evaluateShot_deterministic_witness :
    evaluateShot ⟨0, 0⟩ ⟨⟨7, 8⟩, .black, false⟩ ⟨9, 9⟩ []
      = evaluateShot ⟨0, 0⟩ ⟨⟨7, 8⟩, .black, false⟩ ⟨9, 9⟩ []
    ∧ bootEvaluateShot [] 0 0 ⟨⟨7, 8⟩, .black, false⟩ ⟨9, 9⟩
      = bootEvaluateShot [] 0 0 ⟨⟨7, 8⟩, .black, false⟩ ⟨9, 9⟩ :=
  evaluateShot_deterministic ⟨0, 0⟩ ⟨0, 0⟩ ⟨⟨7, 8⟩, .black, false⟩ ⟨⟨7, 8⟩, .black, false⟩
    ⟨9, 9⟩ ⟨9, 9⟩ [] [] [] [] 0 0 0 0 ⟨⟨7, 8⟩, .black, false⟩ ⟨⟨7, 8⟩, .black, false⟩
    ⟨9, 9⟩ ⟨9, 9⟩ rfl rfl rfl rfl rfl rfl rfl rfl rfl

end Carrom

namespace Carrom

open Classical

lemma atan2_zero_of_nonneg (x : ℝ) (hx : 0 ≤ x) : atan2 0 x = 0 := by
  unfold atan2
  have h : (⟨x, 0⟩ : ℂ) = (x : ℂ) := rfl
  rw [h]
  exact Complex.arg_ofReal_of_nonneg hx

lemma normalizeAngle_zero : normalizeAngle 0 = 0 := by
  unfold normalizeAngle
  rw [if_neg (not_lt.mpr Real.pi_nonneg), if_neg (not_lt.mpr (neg_nonpos.mpr Real.pi_nonneg))]

lemma checkObstacles_of_mem {fromP toP : Pos} {pieces : List AIPiece} {P : AIPiece}
    (hP : P ∈ pieces) (hb : blocksPath fromP toP P) :
    checkObstacles fromP toP pieces := by
  refine ⟨?_, P, hP, hb⟩
  unfold blocksPath at hb
  obtain ⟨h1, h2, -⟩ := hb
  rw [STRIKER_RADIUS] at h1
  rw [PIECE_RADIUS] at h2
  refine ne_of_gt ?_
  linarith

lemma evaluateShot_none_of_obstacle {strikerPos : Pos} {targetPiece : AIPiece} {pocket : Pos}
    {allPieces : List AIPiece}
    (hobs : checkObstacles strikerPos (hitPointOf targetPiece pocket)
      (allPieces.filter fun p => decide (p ≠ targetPiece) && !p.pocketed)) :
    evaluateShot strikerPos targetPiece pocket allPieces = Option.none := by
  simp only [evaluateShot]
  rw [if_pos hobs]

lemma evaluateShot_isSome_of {strikerPos : Pos} {targetPiece : AIPiece} {pocket : Pos}
    {allPieces : List AIPiece}
    (hno : ¬ checkObstacles strikerPos (hitPointOf targetPiece pocket)
      (allPieces.filter fun p => decide (p ≠ targetPiece) && !p.pocketed))
    (hsc : (20 : ℝ) ≤ shotScore strikerPos targetPiece pocket) :
    (evaluateShot strikerPos targetPiece pocket allPieces).isSome = true := by
  simp only [evaluateShot]
  rw [if_neg hno, if_neg (not_lt.mpr hsc)]
  rfl

lemma c8_hit : hitPointOf c8T c8K = ⟨265, 200⟩ := by
  unfold hitPointOf c8T c8K
  dsimp only
  norm_num
  rw [atan2_zero_of_nonneg 100 (by norm_num)]
  norm_num [Real.cos_zero, Real.sin_zero, PIECE_RADIUS, STRIKER_RADIUS]

lemma c8_sqrt165 : Real.sqrt ((165 : ℝ) * 165 + 0 * 0) = 165 := by
  rw [show ((165 : ℝ) * 165 + 0 * 0) = 165 ^ 2 by norm_num,
    Real.sqrt_sq (by norm_num : (0 : ℝ) ≤ 165)]

lemma c8_spec_blocked : specPathBlocked c8S (⟨265, 200⟩ : Pos) c8O := by
  unfold specPathBlocked c8S c8O
  dsimp only
  norm_num
  rw [show (27225 : ℝ) = 165 ^ 2 by norm_num, Real.sqrt_sq (by norm_num : (0 : ℝ) ≤ 165)]
  norm_num [PIECE_RADIUS, STRIKER_RADIUS]

lemma c8_filter : ([c8T, c8O].filter fun p => decide (p ≠ c8T) && !p.pocketed) = [c8O] := by
  have h1 : ¬(c8T ≠ c8T) := fun h => h rfl
  have h2 : c8O ≠ c8T := by
    intro h
    have := congrArg (fun p => p.position.x) h
    norm_num [c8O, c8T] at this
  simp [List.filter, h1, h2, c8O, c8T]

lemma c8_noblock : ¬ checkObstacles c8S (⟨265, 200⟩ : Pos) [c8O] := by
  rintro ⟨-, p, hp, hb⟩
  simp only [List.mem_singleton] at hp
  subst hp
  unfold blocksPath c8S c8O at hb
  dsimp only at hb
  obtain ⟨hb1, -, -⟩ := hb
  rw [show ((265 : ℝ) - 100) * (265 - 100) + (200 - 200) * (200 - 200)
      = (165 : ℝ) * 165 + 0 * 0 by norm_num, c8_sqrt165] at hb1
  rw [STRIKER_RADIUS] at hb1
  norm_num at hb1

lemma c8_score : (20 : ℝ) ≤ shotScore c8S c8T c8K := by
  unfold shotScore
  rw [c8_hit]
  unfold c8S c8T c8K
  dsimp only
  norm_num
  rw [atan2_zero_of_nonneg 100 (by norm_num), atan2_zero_of_nonneg 165 (by norm_num)]
  rw [show ((0 : ℝ) - 0) = 0 by norm_num, normalizeAngle_zero]
  rw [show (27225 : ℝ) = 165 ^ 2 by norm_num, Real.sqrt_sq (by norm_num : (0 : ℝ) ≤ 165),
    show (10000 : ℝ) = 100 ^ 2 by norm_num, Real.sqrt_sq (by norm_num : (0 : ℝ) ≤ 100)]
  norm_num

lemma c8_block2 : blocksPath c8S (⟨265, 200⟩ : Pos) c8O2 := by
  unfold blocksPath c8S c8O2
  dsimp only
  rw [show ((265 : ℝ) - 100) * (265 - 100) + (200 - 200) * (200 - 200)
      = (165 : ℝ) * 165 + 0 * 0 by norm_num, c8_sqrt165]
  norm_num [STRIKER_RADIUS, PIECE_RADIUS]
  rw [show (100 : ℝ) = 10 ^ 2 by norm_num, Real.sqrt_sq (by norm_num : (0 : ℝ) ≤ 10)]
  norm_num

/-- C8 counterexample: the piece `c8O` lies strictly between the
striker and the computed hit point (projection parameter 10/165,
perpendicular distance 3, far below the threshold 40), yet
`evaluateShot` returns a shot: the code's band starts at projection
`STRIKER_RADIUS`, not at the segment's start, so this piece is never
tested as an obstacle. -/
theorem obstruction_symmetry_counterexample :
    specPathBlocked c8S (hitPointOf c8T c8K) c8O
    ∧ (evaluateShot c8S c8T c8K [c8T, c8O]).isSome = true := by
  constructor
  · rw [c8_hit]; exact c8_spec_blocked
  · refine evaluateShot_isSome_of ?_ c8_score
    rw [c8_hit, c8_filter]
    exact c8_noblock

/-- C8 (amended): the obstruction test uses the projection band
`(STRIKER_RADIUS, distance − PIECE_RADIUS)`, not the full interior of
the segment.  Any non-pocketed other piece inside that band within
perpendicular distance `STRIKER_RADIUS + PIECE_RADIUS + 5` forces
`evaluateShot` to null; conversely, when no other non-pocketed piece
falls in the band, the shot is non-null provided its score reaches the
evaluator's threshold of 20 (a clear path alone does not guarantee a
non-null result). -/
theorem obstruction_test_characterization
    (strikerPos : Pos) (targetPiece : AIPiece) (pocket : Pos) (allPieces : List AIPiece) :
    (∀ P ∈ allPieces, P ≠ targetPiece → P.pocketed = false →
      blocksPath strikerPos (hitPointOf targetPiece pocket) P →
      evaluateShot strikerPos targetPiece pocket allPieces = Option.none)
    ∧ ((∀ P ∈ allPieces, P ≠ targetPiece → P.pocketed = false →
        ¬ blocksPath strikerPos (hitPointOf targetPiece pocket) P) →
      (20 : ℝ) ≤ shotScore strikerPos targetPiece pocket →
      (evaluateShot strikerPos targetPiece pocket allPieces).isSome = true) := by
  constructor
  · intro P hmem hne hpo hblock
    apply evaluateShot_none_of_obstacle
    exact checkObstacles_of_mem (List.mem_filter.mpr ⟨hmem, by simp [hne, hpo]⟩) hblock
  · intro hall hsc
    refine evaluateShot_isSome_of ?_ hsc
    rintro ⟨-, p, hp, hb⟩
    obtain ⟨hp1, hp2⟩ := List.mem_filter.mp hp
    simp only [Bool.and_eq_true, decide_eq_true_eq, Bool.not_eq_true'] at hp2
    exact hall p hp1 hp2.1 hp2.2 hb

/-- Witness for the amended C8: the blocker `c8O2` sits in the code's
band (projection 50, offset 10) and the same shot evaluates to null. -/
theorem obstruction_test_characterization_witness :
    evaluateShot c8S c8T c8K [c8T, c8O2] = Option.none :=
  (obstruction_test_characterization c8S c8T c8K [c8T, c8O2]).1 c8O2
    (by simp)
    (by intro h
        have := congrArg (fun p => p.position.x) h
        norm_num [c8O2, c8T] at this)
    rfl
    (by rw [c8_hit]; exact c8_block2)

end Carrom
